import Mathlib

/-!
Shallow embedding of `qhangups/qhangups.py` (class `QHangupsMainWidget`): the
session lifecycle controller (`hangups_start` / `hangups_stop` / `on_connect`),
the event router (`on_event`), the tray-icon gesture logic (`icon_activated` /
`icon_doubleclick_timeout`) and the settings / quit flows.

The widget state is a record of the instance attributes the Python class
mutates.  Fallible code (dereferencing an absent `self.client`) is embedded in
`Except`.  User-visible side effects (warning dialogs, observer registration,
scheduling of connect/disconnect, timer starts/stops, show/hide of surfaces)
are recorded in an `Act` trace so that "exactly one toggle occurs" style
properties can be stated.  External collaborators (`hangups.auth.get_auth`,
`QHangupsConversations`) are modelled from the spec where noted, since their
code is not part of this file's source.
-/

/-- The one Python runtime error the embedded code can raise: dereferencing an
attribute of `None` (as in `self.client.disconnect()` with `self.client = None`). -/
inductive PyError
  | attributeError
  deriving DecidableEq, Repr

/-- Result of one modal input-dialog prompt: the user entered text and pressed
OK, or pressed Cancel (`ok = False` in `QInputDialog.getText`). -/
inductive PromptResult
  | entered (text : String)
  | cancelled
  deriving DecidableEq, Repr

/-- Outcome of the external authentication flow as observed by `login`. -/
inductive AuthOutcome
  | ok (cookies : String)
  | googleAuthError
  | aborted
  deriving DecidableEq, Repr

/-- `QSystemTrayIcon.ActivationReason` values relevant to `icon_activated`. -/
inductive ActivationReason
  | trigger
  | context
  | doubleClick
  | middleClick
  | unknownReason
  deriving DecidableEq, Repr

/-- Conversation events delivered on `conv_list.on_event`; only
`hangups.ChatMessageEvent` carries a conversation id that `on_event` uses. -/
inductive ConvEvent
  | chatMessageEvent (conversation_id : String)
  | renameEvent
  | membershipChangeEvent
  deriving DecidableEq, Repr

/-- Observable side effects emitted by the embedded methods, in program order. -/
inductive Act
  | startCall
  | stopCall
  | warningShown
  | observerAdded
  | connectScheduled
  | disconnectScheduled
  | timerStart
  | timerStop
  | showConvList
  | hideConvList
  | createMessagesDialog
  | setConvTab (conversation_id : String)
  | showMessagesDialog
  | setLanguage
  deriving DecidableEq, Repr

/-- `hangups.Client(cookies)`: opaque client handle built from the cookies. -/
structure Client where
  cookies : String
  deriving DecidableEq, Repr

/-- The snapshot (`initial_data`) delivered once by the `on_connect` observer. -/
structure InitialData where
  self_entity : String
  entities : List String
  conversation_participants : List String
  conversation_states : List String
  sync_timestamp : Nat
  deriving DecidableEq, Repr

/-- `hangups.UserList(client, self_entity, entities, conversation_participants)`. -/
structure UserList where
  client : Option Client
  self_entity : String
  entities : List String
  conversation_participants : List String
  deriving DecidableEq, Repr

/-- `hangups.ConversationList(client, conversation_states, user_list, sync_timestamp)`. -/
structure ConversationList where
  client : Option Client
  conversation_states : List String
  user_list : UserList
  sync_timestamp : Nat
  deriving DecidableEq, Repr

/-- `hangups.ui.notify.Notifier(conv_list)`. -/
structure Notifier where
  conv_list : ConversationList
  deriving DecidableEq, Repr

/-- `QHangupsConversationsList(client, conv_list, parent)`: the conversation-list
dialog, created and shown by `on_connect`. -/
structure QHangupsConversationsList where
  client : Option Client
  conv_list : ConversationList
  visible : Bool
  deriving DecidableEq, Repr

/-- Modelled from the spec: `QHangupsConversations` (the tab-keyed message-view
dialog from `qhangups/conversations.py`, which is not among the source files
here).  Per spec 4.2 it is a single lazily created surface, internally keyed by
conversation id; `tabs` lists the tab keys in creation order, `current` is the
targeted tab, `visible` its shown/hidden state. -/
structure QHangupsConversations where
  client : Option Client
  conv_list : Option ConversationList
  tabs : List String
  current : Option String
  visible : Bool
  deriving DecidableEq, Repr

/-- Modelled from the spec: `QHangupsConversations.set_conv_tab(conv_id, switch)`
(source file `qhangups/conversations.py` is absent).  Per spec 4.2 it targets
the tab for `conv_id`, creating it on first reference and reusing it otherwise;
existing tabs are kept; `switch` controls whether the view switches to the tab. -/
def set_conv_tab (d : QHangupsConversations) (conv_id : String) (switch : Bool) :
    QHangupsConversations :=
  { d with
    tabs := if conv_id ∈ d.tabs then d.tabs else d.tabs ++ [conv_id]
    current := if switch then some conv_id else d.current }

/-- `QHangupsMainWidget.get_credentials`: returns `(email, password)` if both
prompts are confirmed, and `False` (here `none`) if either is cancelled. -/
def get_credentials (email : PromptResult) (password : PromptResult) :
    Option (String × String) :=
  match email with
  | PromptResult.entered e =>
      match password with
      | PromptResult.entered p => some (e, p)
      | PromptResult.cancelled => none
  | PromptResult.cancelled => none

/-- `QHangupsMainWidget.get_pin`: returns the PIN if confirmed, `False`
(here `none`) if the prompt is cancelled. -/
def get_pin (pin : PromptResult) : Option String :=
  match pin with
  | PromptResult.entered p => some p
  | PromptResult.cancelled => none

/-- Modelled from the spec: `hangups.auth.get_auth(credentials_f, pin_f, path)`
is an external collaborator (spec 6).  Per spec 4.4 it asks for credentials,
optionally for a second-factor PIN, fails with `GoogleAuthError` on invalid
credentials, and a cancelled prompt propagates as an abort signal
distinguishable from wrong credentials. -/
def get_auth (credentials : Option (String × String)) (credentialsValid : Bool)
    (pinRequired : Bool) (pin : Option String) : AuthOutcome :=
  match credentials with
  | none => AuthOutcome.aborted
  | some _ =>
      if credentialsValid then
        if pinRequired then
          match pin with
          | none => AuthOutcome.aborted
          | some _ => AuthOutcome.ok "cookies"
        else AuthOutcome.ok "cookies"
      else AuthOutcome.googleAuthError

/-- `QHangupsMainWidget.login`: returns the cookies from `get_auth`, and on
`GoogleAuthError` shows the "Google login failed!" warning and returns `False`
(here `none`).  An abort (cancelled prompt) is distinguishable from
`GoogleAuthError` (spec 4.4), so it is not caught by the warning branch and
yields no cookies without any warning. -/
def login (auth : AuthOutcome) : Option String × List Act :=
  match auth with
  | AuthOutcome.ok cookies => (some cookies, [])
  | AuthOutcome.googleAuthError => (none, [Act.warningShown])
  | AuthOutcome.aborted => (none, [])

/-- The mutable instance attributes of `QHangupsMainWidget`, plus
`pendingConnect`: whether a `client.connect()` task has been scheduled whose
registered `on_connect` observer has not fired yet (nothing in the source ever
cancels such a task or removes the observer). -/
structure QHangupsMainWidget where
  hangups_running : Bool
  client : Option Client
  conv_list : Option ConversationList
  user_list : Option UserList
  notifier : Option Notifier
  conversations_dialog : Option QHangupsConversationsList
  messages_dialog : Option QHangupsConversations
  icon_doubleclick_timer_active : Bool
  startActionEnabled : Bool
  stopActionEnabled : Bool
  trayIconActive : Bool
  pendingConnect : Bool
  deriving DecidableEq, Repr

/-- State established by `QHangupsMainWidget.__init__` (which ends in
`update_status` with `hangups_running = False`). -/
def initWidget : QHangupsMainWidget :=
  { hangups_running := false
    client := none
    conv_list := none
    user_list := none
    notifier := none
    conversations_dialog := none
    messages_dialog := none
    icon_doubleclick_timer_active := false
    startActionEnabled := true
    stopActionEnabled := false
    trayIconActive := false
    pendingConnect := false }

/-- `QHangupsMainWidget.update_status`: sets the tray icon glyph and
enables/disables the connect and disconnect actions from `hangups_running`. -/
def update_status (s : QHangupsMainWidget) : QHangupsMainWidget :=
  if s.hangups_running then
    { s with trayIconActive := true, startActionEnabled := false, stopActionEnabled := true }
  else
    { s with trayIconActive := false, startActionEnabled := true, stopActionEnabled := false }

/-- `QHangupsMainWidget.hangups_start`: performs `login`; if it yields cookies,
allocates `hangups.Client(cookies)`, registers the `on_connect` observer,
schedules `client.connect()`, sets `hangups_running = True` and calls
`update_status`.  There is no guard on `hangups_running`. -/
def hangups_start (auth : AuthOutcome) (s : QHangupsMainWidget) :
    QHangupsMainWidget × List Act :=
  match login auth with
  | (some cookies, acts) =>
      (update_status
        { s with
          client := some { cookies := cookies }
          pendingConnect := true
          hangups_running := true },
       (Act.startCall :: acts) ++ [Act.observerAdded, Act.connectScheduled])
  | (none, acts) => (s, Act.startCall :: acts)

/-- `QHangupsMainWidget.hangups_stop`: evaluates `self.client.disconnect()`
first — with `self.client = None` this raises `AttributeError` before any state
is changed.  Otherwise it schedules the disconnect, clears `conv_list`,
`user_list`, `notifier`, both dialogs and `client`, sets
`hangups_running = False` and calls `update_status`.  The pending-connect task
and its `on_connect` observer are never cancelled. -/
def hangups_stop (s : QHangupsMainWidget) :
    Except PyError (QHangupsMainWidget × List Act) :=
  match s.client with
  | none => Except.error PyError.attributeError
  | some _ =>
      Except.ok
        (update_status
          { s with
            conv_list := none
            user_list := none
            notifier := none
            conversations_dialog := none
            messages_dialog := none
            hangups_running := false
            client := none },
         [Act.stopCall, Act.disconnectScheduled])

/-- `QHangupsMainWidget.settings`: if the dialog is accepted, `set_language`
runs (no session state effect, recorded as `Act.setLanguage`), and if
`hangups_running`, `hangups_stop` is performed followed by `hangups_start`. -/
def settings (accepted : Bool) (auth : AuthOutcome) (s : QHangupsMainWidget) :
    Except PyError (QHangupsMainWidget × List Act) :=
  if accepted then
    if s.hangups_running then
      (hangups_stop s).map (fun p =>
        let q := hangups_start auth p.1
        (q.1, Act.setLanguage :: (p.2 ++ q.2)))
    else Except.ok (s, [Act.setLanguage])
  else Except.ok (s, [])

/-- `QHangupsMainWidget.icon_activated`: only `Trigger` activations are
handled.  If the double-click timer is active, stop it and toggle the
connection (`hangups_stop` if running, else `hangups_start`); otherwise start
the single-shot timer with the system double-click interval. -/
def icon_activated (reason : ActivationReason) (auth : AuthOutcome)
    (s : QHangupsMainWidget) : Except PyError (QHangupsMainWidget × List Act) :=
  if reason = ActivationReason.trigger then
    if s.icon_doubleclick_timer_active then
      if s.hangups_running then
        (hangups_stop { s with icon_doubleclick_timer_active := false }).map
          (fun p => (p.1, Act.timerStop :: p.2))
      else
        Except.ok
          ((hangups_start auth { s with icon_doubleclick_timer_active := false }).1,
           Act.timerStop ::
             (hangups_start auth { s with icon_doubleclick_timer_active := false }).2)
    else
      Except.ok ({ s with icon_doubleclick_timer_active := true }, [Act.timerStart])
  else Except.ok (s, [])

/-- `QHangupsMainWidget.icon_doubleclick_timeout`: hide the conversations
dialog if it exists and is visible, show it if it exists and is hidden, and do
nothing when it does not exist. -/
def icon_doubleclick_timeout (s : QHangupsMainWidget) :
    QHangupsMainWidget × List Act :=
  match s.conversations_dialog with
  | some d =>
      if d.visible then
        ({ s with conversations_dialog := some { d with visible := false } },
         [Act.hideConvList])
      else
        ({ s with conversations_dialog := some { d with visible := true } },
         [Act.showConvList])
  | none => (s, [])

/-- The single-shot timer firing: `icon_doubleclick_timeout` runs (with the
timer no longer active) only if the timer was running and was not stopped. -/
def timer_fire (s : QHangupsMainWidget) : QHangupsMainWidget × List Act :=
  if s.icon_doubleclick_timer_active then
    icon_doubleclick_timeout { s with icon_doubleclick_timer_active := false }
  else (s, [])

/-- `QHangupsMainWidget.quit`: when running, ask for confirmation unless
forced; declining is a no-op, otherwise `hangups_stop` runs.  (Stopping the
event loop is outside the widget state.) -/
def quit (force : Bool) (confirmed : Bool) (s : QHangupsMainWidget) :
    Except PyError (QHangupsMainWidget × List Act) :=
  if s.hangups_running then
    if force || confirmed then hangups_stop s
    else Except.ok (s, [])
  else Except.ok (s, [])

/-- `QHangupsMainWidget.on_connect`: builds `UserList` and `ConversationList`
from the snapshot and the current `self.client`, registers `on_event` on the
conversation list, builds the `Notifier`, and creates and shows the
conversations-list dialog.  It fires at most once per scheduled connect. -/
def on_connect (initial_data : InitialData) (s : QHangupsMainWidget) :
    QHangupsMainWidget × List Act :=
  let ul : UserList :=
    { client := s.client
      self_entity := initial_data.self_entity
      entities := initial_data.entities
      conversation_participants := initial_data.conversation_participants }
  let cl : ConversationList :=
    { client := s.client
      conversation_states := initial_data.conversation_states
      user_list := ul
      sync_timestamp := initial_data.sync_timestamp }
  ({ s with
      user_list := some ul
      conv_list := some cl
      notifier := some { conv_list := cl }
      conversations_dialog := some { client := s.client, conv_list := cl, visible := true }
      pendingConnect := false },
   [Act.observerAdded, Act.showConvList])

/-- `QHangupsMainWidget.on_event`: for a `ChatMessageEvent`, lazily create the
messages dialog if absent, target the tab of the event's conversation id
(`set_conv_tab`, `switch = True` by default) and show the dialog; all other
events are not routed to any UI surface. -/
def on_event (conv_event : ConvEvent) (s : QHangupsMainWidget) :
    QHangupsMainWidget × List Act :=
  match conv_event with
  | ConvEvent.chatMessageEvent conv_id =>
      match s.messages_dialog with
      | none =>
          let d0 : QHangupsConversations :=
            { client := s.client, conv_list := s.conv_list
              tabs := [], current := none, visible := false }
          let d1 := set_conv_tab d0 conv_id true
          ({ s with messages_dialog := some { d1 with visible := true } },
           [Act.createMessagesDialog, Act.setConvTab conv_id,
            Act.showMessagesDialog])
      | some d =>
          let d1 := set_conv_tab d conv_id true
          ({ s with messages_dialog := some { d1 with visible := true } },
           [Act.setConvTab conv_id, Act.showMessagesDialog])
  | ConvEvent.renameEvent => (s, [])
  | ConvEvent.membershipChangeEvent => (s, [])

/-- Is the action an invocation of the connection toggle (`hangups_start` or
`hangups_stop`)? -/
def isConnToggle : Act → Bool
  | Act.startCall => true
  | Act.stopCall => true
  | _ => false

/-- Is the action a show/hide of the conversation-list surface? -/
def isVisToggle : Act → Bool
  | Act.showConvList => true
  | Act.hideConvList => true
  | _ => false

/-- The connection toggles contained in a trace, in order. -/
def connToggles (tr : List Act) : List Act := tr.filter isConnToggle

/-- The conversation-list visibility toggles contained in a trace, in order. -/
def visToggles (tr : List Act) : List Act := tr.filter isVisToggle

/-- The external events that can reach the widget: UI action triggers (which
fire only while the `QAction` is enabled), tray activation, the timer, the
asynchronous `on_connect` completion (which fires only if a scheduled connect
with a registered observer is pending), conversation events (delivered through
a live conversation list), the settings dialog and quit requests. -/
inductive Event
  | startActionClick (auth : AuthOutcome)
  | stopActionClick
  | trayActivated (reason : ActivationReason) (auth : AuthOutcome)
  | doubleclickTimeout
  | connectCompleted (initial_data : InitialData)
  | conversationEvent (conv_event : ConvEvent)
  | settingsDialogClosed (accepted : Bool) (auth : AuthOutcome)
  | quitRequested (force : Bool) (confirmed : Bool)
  deriving DecidableEq, Repr

/-- One dispatch of an external event by the widget. -/
def step (e : Event) (s : QHangupsMainWidget) :
    Except PyError (QHangupsMainWidget × List Act) :=
  match e with
  | Event.startActionClick auth =>
      if s.startActionEnabled then Except.ok (hangups_start auth s)
      else Except.ok (s, [])
  | Event.stopActionClick =>
      if s.stopActionEnabled then hangups_stop s
      else Except.ok (s, [])
  | Event.trayActivated reason auth => icon_activated reason auth s
  | Event.doubleclickTimeout => Except.ok (timer_fire s)
  | Event.connectCompleted initial_data =>
      if s.pendingConnect then Except.ok (on_connect initial_data s)
      else Except.ok (s, [])
  | Event.conversationEvent conv_event =>
      if s.conv_list.isSome then Except.ok (on_event conv_event s)
      else Except.ok (s, [])
  | Event.settingsDialogClosed accepted auth => settings accepted auth s
  | Event.quitRequested force confirmed => quit force confirmed s

/-- States of the widget reachable from `__init__` by external events. -/
inductive Reachable : QHangupsMainWidget → Prop
  | init : Reachable initWidget
  | next (e : Event) (s s' : QHangupsMainWidget) (tr : List Act) :
      Reachable s → step e s = Except.ok (s', tr) → Reachable s'

/-- Restriction ruling out the race flagged in the spec's design notes: a
connect completion is only delivered while the session is still running (no
`stop()` intervened between the `start()` and its `on_connect`). -/
def goodEvent (e : Event) (s : QHangupsMainWidget) : Bool :=
  match e with
  | Event.connectCompleted _ => s.hangups_running
  | _ => true

/-- Reachability under the `goodEvent` restriction on connect completions. -/
inductive GoodReachable : QHangupsMainWidget → Prop
  | init : GoodReachable initWidget
  | next (e : Event) (s s' : QHangupsMainWidget) (tr : List Act) :
      GoodReachable s → goodEvent e s = true → step e s = Except.ok (s', tr) →
      GoodReachable s'

/-- Two tray-icon clicks (`Trigger` activations) in direct succession, i.e.
the second one arrives while the double-click timer is still active. -/
def two_clicks (auth1 auth2 : AuthOutcome) (s : QHangupsMainWidget) :
    Except PyError (QHangupsMainWidget × List Act) :=
  match icon_activated ActivationReason.trigger auth1 s with
  | Except.error e => Except.error e
  | Except.ok (s1, t1) =>
      match icon_activated ActivationReason.trigger auth2 s1 with
      | Except.error e => Except.error e
      | Except.ok (s2, t2) => Except.ok (s2, t1 ++ t2)

/-- One tray-icon click followed by silence until the double-click timer fires. -/
def click_then_timeout (auth : AuthOutcome) (s : QHangupsMainWidget) :
    Except PyError (QHangupsMainWidget × List Act) :=
  match icon_activated ActivationReason.trigger auth s with
  | Except.error e => Except.error e
  | Except.ok (s1, t1) =>
      match timer_fire s1 with
      | (s2, t2) => Except.ok (s2, t1 ++ t2)

/-- The widget state observed after a call to `hangups_stop`: the new state if
the call completed, the unchanged state if it raised (the raise happens before
any attribute is assigned). -/
def stop_observed (s : QHangupsMainWidget) : QHangupsMainWidget :=
  match hangups_stop s with
  | Except.ok p => p.1
  | Except.error _ => s

/-- UI-affordance invariant maintained by `update_status`: the connect action
is enabled exactly while disconnected, the disconnect action exactly while
running. -/
def uiInvariant (s : QHangupsMainWidget) : Prop :=
  s.startActionEnabled = !s.hangups_running ∧ s.stopActionEnabled = s.hangups_running

/-- The handle invariant of the spec's data model: all four session handles
present while running with collections built (Connected), all absent while not
running (Disconnected), or running with only the client present (Connecting). -/
def handleInvariant (s : QHangupsMainWidget) : Prop :=
  (s.hangups_running = true ∧ s.client.isSome = true ∧ s.conv_list.isSome = true ∧
     s.user_list.isSome = true ∧ s.notifier.isSome = true) ∨
  (s.hangups_running = false ∧ s.client = none ∧ s.conv_list = none ∧
     s.user_list = none ∧ s.notifier = none) ∨
  (s.hangups_running = true ∧ s.client.isSome = true ∧ s.conv_list = none ∧
     s.user_list = none ∧ s.notifier = none)

/-- The Connected state of the spec: running with all four handles present. -/
def ConnectedState (s : QHangupsMainWidget) : Prop :=
  s.hangups_running = true ∧ s.client.isSome = true ∧ s.conv_list.isSome = true ∧
    s.user_list.isSome = true ∧ s.notifier.isSome = true

/-- A sample client, as allocated by `hangups_start` from cookies `"c"`. -/
def demoClient : Client := { cookies := "c" }

/-- A sample user list as built by `on_connect` while connected. -/
def demoUserList : UserList :=
  { client := some demoClient
    self_entity := "me"
    entities := []
    conversation_participants := [] }

/-- A sample conversation list as built by `on_connect` while connected. -/
def demoConvList : ConversationList :=
  { client := some demoClient
    conversation_states := []
    user_list := demoUserList
    sync_timestamp := 0 }

/-- A sample Connected state of the widget. -/
def sConnected : QHangupsMainWidget :=
  { hangups_running := true
    client := some demoClient
    conv_list := some demoConvList
    user_list := some demoUserList
    notifier := some { conv_list := demoConvList }
    conversations_dialog := some { client := some demoClient, conv_list := demoConvList, visible := true }
    messages_dialog := none
    icon_doubleclick_timer_active := false
    startActionEnabled := false
    stopActionEnabled := true
    trayIconActive := true
    pendingConnect := false }

/-- The state after `hangups_start` with cookies `"c"` from `initWidget`
(Connecting: client allocated, observer registered, connect scheduled). -/
def sConnecting : QHangupsMainWidget :=
  { hangups_running := true
    client := some demoClient
    conv_list := none
    user_list := none
    notifier := none
    conversations_dialog := none
    messages_dialog := none
    icon_doubleclick_timer_active := false
    startActionEnabled := false
    stopActionEnabled := true
    trayIconActive := true
    pendingConnect := true }

/-- The state after `hangups_stop` from `sConnecting`: everything cleared, but
the scheduled connect and its registered observer are still pending. -/
def sStopped : QHangupsMainWidget :=
  { hangups_running := false
    client := none
    conv_list := none
    user_list := none
    notifier := none
    conversations_dialog := none
    messages_dialog := none
    icon_doubleclick_timer_active := false
    startActionEnabled := true
    stopActionEnabled := false
    trayIconActive := false
    pendingConnect := true }

/-- A sample snapshot delivered by a (late) connect completion. -/
def demoInitialData : InitialData :=
  { self_entity := "me"
    entities := []
    conversation_participants := []
    conversation_states := []
    sync_timestamp := 0 }

/-- The user list a late `on_connect` builds after `stop()` (client is `None`). -/
def raceUserList : UserList :=
  { client := none
    self_entity := "me"
    entities := []
    conversation_participants := [] }

/-- The conversation list a late `on_connect` builds after `stop()`. -/
def raceConvList : ConversationList :=
  { client := none
    conversation_states := []
    user_list := raceUserList
    sync_timestamp := 0 }

/-- The state reached when the connect completion fires after an intervening
`hangups_stop` (the race flagged in the spec's design notes): not running, no
client, but collections, notifier and the conversations dialog present. -/
def sRace : QHangupsMainWidget :=
  { hangups_running := false
    client := none
    conv_list := some raceConvList
    user_list := some raceUserList
    notifier := some { conv_list := raceConvList }
    conversations_dialog := some { client := none, conv_list := raceConvList, visible := true }
    messages_dialog := none
    icon_doubleclick_timer_active := false
    startActionEnabled := true
    stopActionEnabled := false
    trayIconActive := false
    pendingConnect := false }

/-- The state a completed `hangups_stop` produces (client was present): all
handles and dialogs cleared, `hangups_running = False`, affordances reverted by
`update_status`; the timer and the pending-connect bookkeeping are untouched. -/
def stoppedFrom (s : QHangupsMainWidget) : QHangupsMainWidget :=
  { hangups_running := false
    client := none
    conv_list := none
    user_list := none
    notifier := none
    conversations_dialog := none
    messages_dialog := none
    icon_doubleclick_timer_active := s.icon_doubleclick_timer_active
    startActionEnabled := true
    stopActionEnabled := false
    trayIconActive := false
    pendingConnect := s.pendingConnect }

/-- The state `hangups_start` produces when login yields cookies `c`: fresh
client, observer registered and connect scheduled (`pendingConnect`), running,
affordances switched by `update_status`; everything else untouched. -/
def startedFrom (c : String) (s : QHangupsMainWidget) : QHangupsMainWidget :=
  { hangups_running := true
    client := some { cookies := c }
    conv_list := s.conv_list
    user_list := s.user_list
    notifier := s.notifier
    conversations_dialog := s.conversations_dialog
    messages_dialog := s.messages_dialog
    icon_doubleclick_timer_active := s.icon_doubleclick_timer_active
    startActionEnabled := false
    stopActionEnabled := true
    trayIconActive := true
    pendingConnect := true }

/-! ### Helper lemmas -/

@[simp] theorem update_status_hangups_running (s : QHangupsMainWidget) :
    (update_status s).hangups_running = s.hangups_running := by
  cases h : s.hangups_running <;> simp [update_status, h]

@[simp] theorem update_status_client (s : QHangupsMainWidget) :
    (update_status s).client = s.client := by
  cases h : s.hangups_running <;> simp [update_status, h]

@[simp] theorem update_status_conv_list (s : QHangupsMainWidget) :
    (update_status s).conv_list = s.conv_list := by
  cases h : s.hangups_running <;> simp [update_status, h]

@[simp] theorem update_status_user_list (s : QHangupsMainWidget) :
    (update_status s).user_list = s.user_list := by
  cases h : s.hangups_running <;> simp [update_status, h]

@[simp] theorem update_status_notifier (s : QHangupsMainWidget) :
    (update_status s).notifier = s.notifier := by
  cases h : s.hangups_running <;> simp [update_status, h]

@[simp] theorem update_status_conversations_dialog (s : QHangupsMainWidget) :
    (update_status s).conversations_dialog = s.conversations_dialog := by
  cases h : s.hangups_running <;> simp [update_status, h]

@[simp] theorem update_status_messages_dialog (s : QHangupsMainWidget) :
    (update_status s).messages_dialog = s.messages_dialog := by
  cases h : s.hangups_running <;> simp [update_status, h]

@[simp] theorem update_status_timer (s : QHangupsMainWidget) :
    (update_status s).icon_doubleclick_timer_active = s.icon_doubleclick_timer_active := by
  cases h : s.hangups_running <;> simp [update_status, h]

@[simp] theorem update_status_pendingConnect (s : QHangupsMainWidget) :
    (update_status s).pendingConnect = s.pendingConnect := by
  cases h : s.hangups_running <;> simp [update_status, h]

@[simp] theorem update_status_startActionEnabled (s : QHangupsMainWidget) :
    (update_status s).startActionEnabled = !s.hangups_running := by
  cases h : s.hangups_running <;> simp [update_status, h]

@[simp] theorem update_status_stopActionEnabled (s : QHangupsMainWidget) :
    (update_status s).stopActionEnabled = s.hangups_running := by
  cases h : s.hangups_running <;> simp [update_status, h]

theorem uiInvariant_update_status (s : QHangupsMainWidget) :
    uiInvariant (update_status s) := by
  constructor <;> simp

theorem uiInvariant_hangups_start (auth : AuthOutcome) (s : QHangupsMainWidget)
    (h : uiInvariant s) : uiInvariant (hangups_start auth s).1 := by
  cases auth with
  | ok c => exact uiInvariant_update_status _
  | googleAuthError => exact h
  | aborted => exact h

theorem uiInvariant_hangups_stop (s s' : QHangupsMainWidget) (tr : List Act)
    (h : hangups_stop s = Except.ok (s', tr)) : uiInvariant s' := by
  cases hc : s.client with
  | none => simp [hangups_stop, hc] at h
  | some c =>
      simp [hangups_stop, hc] at h
      rw [← h.1]
      exact uiInvariant_update_status _

theorem uiInvariant_icon_activated (r : ActivationReason) (auth : AuthOutcome)
    (s s' : QHangupsMainWidget) (tr : List Act)
    (h : uiInvariant s) (hs : icon_activated r auth s = Except.ok (s', tr)) :
    uiInvariant s' := by
  unfold icon_activated at hs
  split at hs
  · split at hs
    · split at hs
      · cases hstop : hangups_stop { s with icon_doubleclick_timer_active := false } with
        | error e => rw [hstop] at hs; cases hs
        | ok p =>
            rw [hstop] at hs
            simp [Except.map] at hs
            rw [← hs.1]
            exact uiInvariant_hangups_stop _ _ _ hstop
      · simp at hs
        rw [← hs.1]
        exact uiInvariant_hangups_start auth { s with icon_doubleclick_timer_active := false } h
    · simp at hs
      rw [← hs.1]
      exact h
  · simp at hs
    rw [← hs.1]
    exact h

theorem uiInvariant_settings (accepted : Bool) (auth : AuthOutcome)
    (s s' : QHangupsMainWidget) (tr : List Act)
    (h : uiInvariant s) (hs : settings accepted auth s = Except.ok (s', tr)) :
    uiInvariant s' := by
  unfold settings at hs
  split at hs
  · split at hs
    · cases hstop : hangups_stop s with
      | error e => rw [hstop] at hs; cases hs
      | ok p =>
          rw [hstop] at hs
          simp [Except.map] at hs
          rw [← hs.1]
          exact uiInvariant_hangups_start auth p.1 (uiInvariant_hangups_stop s p.1 p.2 (by rw [hstop]))
    · simp at hs
      rw [← hs.1]
      exact h
  · simp at hs
    rw [← hs.1]
    exact h

theorem uiInvariant_quit (force confirmed : Bool) (s s' : QHangupsMainWidget)
    (tr : List Act) (h : uiInvariant s)
    (hs : quit force confirmed s = Except.ok (s', tr)) : uiInvariant s' := by
  unfold quit at hs
  split at hs
  · split at hs
    · exact uiInvariant_hangups_stop s s' tr hs
    · simp at hs
      rw [← hs.1]
      exact h
  · simp at hs
    rw [← hs.1]
    exact h

theorem uiInvariant_on_connect (initial_data : InitialData) (s : QHangupsMainWidget)
    (h : uiInvariant s) : uiInvariant (on_connect initial_data s).1 := by
  exact h

theorem uiInvariant_on_event (conv_event : ConvEvent) (s : QHangupsMainWidget)
    (h : uiInvariant s) : uiInvariant (on_event conv_event s).1 := by
  cases conv_event with
  | chatMessageEvent c =>
      cases hm : s.messages_dialog with
      | none => simpa [on_event, hm, uiInvariant] using h
      | some d => simpa [on_event, hm, uiInvariant] using h
  | renameEvent => exact h
  | membershipChangeEvent => exact h

theorem uiInvariant_timer_fire (s : QHangupsMainWidget)
    (h : uiInvariant s) : uiInvariant (timer_fire s).1 := by
  unfold timer_fire
  split
  · unfold icon_doubleclick_timeout
    split
    · split <;> exact h
    · exact h
  · exact h

theorem pair_eq_fst {α β : Type} {p : α × β} {a : α} {b : β} (h : p = (a, b)) :
    p.1 = a := by
  rw [h]

theorem uiInvariant_step (e : Event) (s s' : QHangupsMainWidget) (tr : List Act)
    (h : uiInvariant s) (hstep : step e s = Except.ok (s', tr)) : uiInvariant s' := by
  cases e with
  | startActionClick auth =>
      simp only [step] at hstep
      split at hstep
      · simp only [Except.ok.injEq] at hstep
        rw [← pair_eq_fst hstep]
        exact uiInvariant_hangups_start auth s h
      · simp at hstep
        rw [← hstep.1]
        exact h
  | stopActionClick =>
      simp only [step] at hstep
      split at hstep
      · exact uiInvariant_hangups_stop s s' tr hstep
      · simp at hstep
        rw [← hstep.1]
        exact h
  | trayActivated reason auth =>
      simp only [step] at hstep
      exact uiInvariant_icon_activated reason auth s s' tr h hstep
  | doubleclickTimeout =>
      simp only [step, Except.ok.injEq] at hstep
      rw [← pair_eq_fst hstep]
      exact uiInvariant_timer_fire s h
  | connectCompleted initial_data =>
      simp only [step] at hstep
      split at hstep
      · simp only [Except.ok.injEq] at hstep
        rw [← pair_eq_fst hstep]
        exact uiInvariant_on_connect initial_data s h
      · simp at hstep
        rw [← hstep.1]
        exact h
  | conversationEvent conv_event =>
      simp only [step] at hstep
      split at hstep
      · simp only [Except.ok.injEq] at hstep
        rw [← pair_eq_fst hstep]
        exact uiInvariant_on_event conv_event s h
      · simp at hstep
        rw [← hstep.1]
        exact h
  | settingsDialogClosed accepted auth =>
      simp only [step] at hstep
      exact uiInvariant_settings accepted auth s s' tr h hstep
  | quitRequested force confirmed =>
      simp only [step] at hstep
      exact uiInvariant_quit force confirmed s s' tr h hstep

theorem uiInvariant_reachable (s : QHangupsMainWidget) (h : Reachable s) :
    uiInvariant s := by
  induction h with
  | init => constructor <;> rfl
  | next e t t' tr _ hstep ih => exact uiInvariant_step e t t' tr ih hstep

theorem handleInvariant_of_fields (s t : QHangupsMainWidget)
    (h1 : t.hangups_running = s.hangups_running) (h2 : t.client = s.client)
    (h3 : t.conv_list = s.conv_list) (h4 : t.user_list = s.user_list)
    (h5 : t.notifier = s.notifier) (h : handleInvariant s) : handleInvariant t := by
  unfold handleInvariant at h ⊢
  rw [h1, h2, h3, h4, h5]
  exact h

theorem handleInvariant_running_client (s : QHangupsMainWidget)
    (h : handleInvariant s) (hr : s.hangups_running = true) :
    s.client.isSome = true := by
  rcases h with ⟨_, h2, _, _, _⟩ | ⟨h1, _, _, _, _⟩ | ⟨_, h2, _, _, _⟩
  · exact h2
  · rw [hr] at h1; cases h1
  · exact h2

theorem handleInvariant_hangups_start (auth : AuthOutcome) (s : QHangupsMainWidget)
    (h : handleInvariant s) : handleInvariant (hangups_start auth s).1 := by
  cases auth with
  | ok c =>
      rcases h with ⟨h1, h2, h3, h4, h5⟩ | ⟨h1, h2, h3, h4, h5⟩ | ⟨h1, h2, h3, h4, h5⟩ <;>
        simp [hangups_start, login, handleInvariant, h1, h2, h3, h4, h5]
  | googleAuthError => exact h
  | aborted => exact h

theorem handleInvariant_hangups_stop (s s' : QHangupsMainWidget) (tr : List Act)
    (h : hangups_stop s = Except.ok (s', tr)) : handleInvariant s' := by
  cases hc : s.client with
  | none => simp [hangups_stop, hc] at h
  | some c =>
      simp [hangups_stop, hc] at h
      rw [← h.1]
      simp [handleInvariant]

theorem handleInvariant_on_connect (initial_data : InitialData)
    (s : QHangupsMainWidget) (hr : s.hangups_running = true)
    (hc : s.client.isSome = true) :
    handleInvariant (on_connect initial_data s).1 := by
  simp [on_connect, handleInvariant, hr, hc]

theorem handleInvariant_on_event (conv_event : ConvEvent) (s : QHangupsMainWidget)
    (h : handleInvariant s) : handleInvariant (on_event conv_event s).1 := by
  cases conv_event with
  | chatMessageEvent c =>
      cases hm : s.messages_dialog with
      | none =>
          refine handleInvariant_of_fields s _ ?_ ?_ ?_ ?_ ?_ h <;> simp [on_event, hm]
      | some d =>
          refine handleInvariant_of_fields s _ ?_ ?_ ?_ ?_ ?_ h <;> simp [on_event, hm]
  | renameEvent => exact h
  | membershipChangeEvent => exact h

theorem handleInvariant_timer_fire (s : QHangupsMainWidget)
    (h : handleInvariant s) : handleInvariant (timer_fire s).1 := by
  unfold timer_fire
  split
  · unfold icon_doubleclick_timeout
    split
    · split <;> exact handleInvariant_of_fields s _ rfl rfl rfl rfl rfl h
    · exact handleInvariant_of_fields s _ rfl rfl rfl rfl rfl h
  · exact h

theorem handleInvariant_icon_activated (r : ActivationReason) (auth : AuthOutcome)
    (s s' : QHangupsMainWidget) (tr : List Act)
    (h : handleInvariant s) (hs : icon_activated r auth s = Except.ok (s', tr)) :
    handleInvariant s' := by
  unfold icon_activated at hs
  split at hs
  · split at hs
    · split at hs
      · cases hstop : hangups_stop { s with icon_doubleclick_timer_active := false } with
        | error e => rw [hstop] at hs; cases hs
        | ok p =>
            rw [hstop] at hs
            simp [Except.map] at hs
            rw [← hs.1]
            exact handleInvariant_hangups_stop _ _ _ hstop
      · simp only [Except.ok.injEq, Prod.mk.injEq] at hs
        rw [← hs.1]
        exact handleInvariant_hangups_start auth { s with icon_doubleclick_timer_active := false }
          (handleInvariant_of_fields s _ rfl rfl rfl rfl rfl h)
    · simp at hs
      rw [← hs.1]
      exact handleInvariant_of_fields s _ rfl rfl rfl rfl rfl h
  · simp at hs
    rw [← hs.1]
    exact h

theorem handleInvariant_settings (accepted : Bool) (auth : AuthOutcome)
    (s s' : QHangupsMainWidget) (tr : List Act)
    (h : handleInvariant s) (hs : settings accepted auth s = Except.ok (s', tr)) :
    handleInvariant s' := by
  unfold settings at hs
  split at hs
  · split at hs
    · cases hstop : hangups_stop s with
      | error e => rw [hstop] at hs; cases hs
      | ok p =>
          rw [hstop] at hs
          simp [Except.map] at hs
          rw [← hs.1]
          exact handleInvariant_hangups_start auth p.1
            (handleInvariant_hangups_stop s p.1 p.2 (by rw [hstop]))
    · simp at hs
      rw [← hs.1]
      exact h
  · simp at hs
    rw [← hs.1]
    exact h

theorem handleInvariant_quit (force confirmed : Bool) (s s' : QHangupsMainWidget)
    (tr : List Act) (h : handleInvariant s)
    (hs : quit force confirmed s = Except.ok (s', tr)) : handleInvariant s' := by
  unfold quit at hs
  split at hs
  · split at hs
    · exact handleInvariant_hangups_stop s s' tr hs
    · simp at hs
      rw [← hs.1]
      exact h
  · simp at hs
    rw [← hs.1]
    exact h

theorem handleInvariant_step (e : Event) (s s' : QHangupsMainWidget) (tr : List Act)
    (h : handleInvariant s) (hg : goodEvent e s = true)
    (hstep : step e s = Except.ok (s', tr)) : handleInvariant s' := by
  cases e with
  | startActionClick auth =>
      simp only [step] at hstep
      split at hstep
      · simp only [Except.ok.injEq] at hstep
        rw [← pair_eq_fst hstep]
        exact handleInvariant_hangups_start auth s h
      · simp at hstep
        rw [← hstep.1]
        exact h
  | stopActionClick =>
      simp only [step] at hstep
      split at hstep
      · exact handleInvariant_hangups_stop s s' tr hstep
      · simp at hstep
        rw [← hstep.1]
        exact h
  | trayActivated reason auth =>
      simp only [step] at hstep
      exact handleInvariant_icon_activated reason auth s s' tr h hstep
  | doubleclickTimeout =>
      simp only [step, Except.ok.injEq] at hstep
      rw [← pair_eq_fst hstep]
      exact handleInvariant_timer_fire s h
  | connectCompleted initial_data =>
      simp only [goodEvent] at hg
      simp only [step] at hstep
      split at hstep
      · simp only [Except.ok.injEq] at hstep
        rw [← pair_eq_fst hstep]
        exact handleInvariant_on_connect initial_data s hg
          (handleInvariant_running_client s h hg)
      · simp at hstep
        rw [← hstep.1]
        exact h
  | conversationEvent conv_event =>
      simp only [step] at hstep
      split at hstep
      · simp only [Except.ok.injEq] at hstep
        rw [← pair_eq_fst hstep]
        exact handleInvariant_on_event conv_event s h
      · simp at hstep
        rw [← hstep.1]
        exact h
  | settingsDialogClosed accepted auth =>
      simp only [step] at hstep
      exact handleInvariant_settings accepted auth s s' tr h hstep
  | quitRequested force confirmed =>
      simp only [step] at hstep
      exact handleInvariant_quit force confirmed s s' tr h hstep

theorem reachable_sConnecting : Reachable sConnecting :=
  Reachable.next (Event.startActionClick (AuthOutcome.ok "c")) initWidget sConnecting
    [Act.startCall, Act.observerAdded, Act.connectScheduled] Reachable.init rfl

theorem reachable_sConnected : Reachable sConnected :=
  Reachable.next (Event.connectCompleted demoInitialData) sConnecting sConnected
    [Act.observerAdded, Act.showConvList] reachable_sConnecting rfl

theorem reachable_sStopped : Reachable sStopped :=
  Reachable.next Event.stopActionClick sConnecting sStopped
    [Act.stopCall, Act.disconnectScheduled] reachable_sConnecting rfl

theorem reachable_sRace : Reachable sRace :=
  Reachable.next (Event.connectCompleted demoInitialData) sStopped sRace
    [Act.observerAdded, Act.showConvList] reachable_sStopped rfl

theorem goodReachable_sConnecting : GoodReachable sConnecting :=
  GoodReachable.next (Event.startActionClick (AuthOutcome.ok "c")) initWidget sConnecting
    [Act.startCall, Act.observerAdded, Act.connectScheduled] GoodReachable.init rfl rfl

/-! ### Claims -/

/-- Claim C1, counterexample: `hangups_start` has no guard on `hangups_running`.
In the reachable Connected state `sConnected`, calling it (with a login that
yields cookies, e.g. from a valid cookie cache) is not a no-op: it changes the
state and registers an `on_connect` observer on a freshly allocated client. -/
theorem C1_counterexample :
    Reachable sConnected ∧ sConnected.hangups_running = true ∧
    (hangups_start (AuthOutcome.ok "c2") sConnected).1 ≠ sConnected ∧
    Act.observerAdded ∈ (hangups_start (AuthOutcome.ok "c2") sConnected).2 :=
  ⟨reachable_sConnected, rfl, by decide, by decide⟩

/-- Claim C1 (amended): `hangups_start` itself performs no state check, so a
direct call while running is not a no-op; the no-op guarantee holds at the
program level: in every reachable state the Connect action is disabled exactly
while the session is running (`update_status`), so triggering the start action
while not Disconnected dispatches nothing — no state change, no client
allocation, no observer registration. -/
theorem C1_start_noop_via_disabled_action (s : QHangupsMainWidget)
    (auth : AuthOutcome) (hs : Reachable s) (hr : s.hangups_running = true) :
    step (Event.startActionClick auth) s = Except.ok (s, []) := by
  have h := uiInvariant_reachable s hs
  have he : s.startActionEnabled = false := by rw [h.1, hr]; rfl
  simp [step, he]

/-- Witness for the amended C1 at the reachable Connecting state. -/
theorem C1_start_noop_via_disabled_action_witness :
    Reachable sConnecting ∧ sConnecting.hangups_running = true ∧
    step (Event.startActionClick (AuthOutcome.ok "x")) sConnecting =
      Except.ok (sConnecting, []) :=
  ⟨reachable_sConnecting, rfl,
    C1_start_noop_via_disabled_action sConnecting (AuthOutcome.ok "x")
      reachable_sConnecting rfl⟩

/-- Claim C2, counterexample: calling `hangups_stop` in the Disconnected state
(`hangups_running = False`, `client = None`) is not error-free: it evaluates
`self.client.disconnect()` and raises `AttributeError`. -/
theorem C2_counterexample :
    initWidget.hangups_running = false ∧ initWidget.client = none ∧
    hangups_stop initWidget = Except.error PyError.attributeError :=
  ⟨rfl, rfl, rfl⟩

/-- Claim C2 (amended): a direct call to `hangups_stop` with the client absent
raises (before changing any state) rather than returning as a no-op; the no-op
property holds at the program level: in every reachable state the Disconnect
action is disabled exactly while the session is not running (`update_status`),
so triggering the stop action while Disconnected dispatches nothing. -/
theorem C2_stop_noop_via_disabled_action (s : QHangupsMainWidget)
    (hs : Reachable s) (hr : s.hangups_running = false) :
    step Event.stopActionClick s = Except.ok (s, []) := by
  have h := uiInvariant_reachable s hs
  have he : s.stopActionEnabled = false := by rw [h.2, hr]
  simp [step, he]

/-- Witness for the amended C2 at the initial (Disconnected) state. -/
theorem C2_stop_noop_via_disabled_action_witness :
    Reachable initWidget ∧ initWidget.hangups_running = false ∧
    step Event.stopActionClick initWidget = Except.ok (initWidget, []) :=
  ⟨Reachable.init, rfl, C2_stop_noop_via_disabled_action initWidget Reachable.init rfl⟩

/-- Claim C3, counterexample: the handle invariant does not hold in every
reachable state.  The trace start (login ok) → stop → late connect completion
(the race in the spec's design notes: the scheduled connect and its observer
are never cancelled by `hangups_stop`) reaches `sRace`, where the session is
Disconnected yet the conversation list, user list and notifier are present. -/
theorem C3_counterexample : Reachable sRace ∧ ¬ handleInvariant sRace :=
  ⟨reachable_sRace, by unfold handleInvariant; decide⟩

/-- Claim C3 (amended): the handle invariant — all four handles present while
Connected, all absent while Disconnected, only the client while Connecting —
holds in every state reachable when each connect completion fires while the
session is still running (no `stop()` in between, ruling out the
late-`on_connect` race). -/
theorem C3_handle_invariant_good (s : QHangupsMainWidget) (h : GoodReachable s) :
    handleInvariant s := by
  induction h with
  | init => exact Or.inr (Or.inl ⟨rfl, rfl, rfl, rfl, rfl⟩)
  | next e t t' tr _ hg hstep ih => exact handleInvariant_step e t t' tr ih hg hstep

/-- Witness for the amended C3 at the race-free reachable Connecting state. -/
theorem C3_handle_invariant_good_witness :
    GoodReachable sConnecting ∧ handleInvariant sConnecting :=
  ⟨goodReachable_sConnecting, C3_handle_invariant_good sConnecting goodReachable_sConnecting⟩

/-- Claim C4, counterexample: after a call to `hangups_stop` from the reachable
race state `sRace` (client absent, collections present), the call raises before
clearing anything, so the conversation handles and the conversations dialog are
still present after the call. -/
theorem C4_counterexample :
    Reachable sRace ∧ hangups_stop sRace = Except.error PyError.attributeError ∧
    (stop_observed sRace).conv_list ≠ none ∧
    (stop_observed sRace).conversations_dialog ≠ none :=
  ⟨reachable_sRace, rfl, by decide, by decide⟩

/-- Claim C4 (amended): after every call to `hangups_stop` that completes
without raising — i.e. from any state in which the client handle is present —
all four session handles and both dialogs (conversations dialog and tabbed
messages dialog) are absent. -/
theorem C4_stop_clears_everything (s s' : QHangupsMainWidget) (tr : List Act)
    (h : hangups_stop s = Except.ok (s', tr)) :
    s'.client = none ∧ s'.conv_list = none ∧ s'.user_list = none ∧
      s'.notifier = none ∧ s'.conversations_dialog = none ∧
      s'.messages_dialog = none := by
  cases hc : s.client with
  | none => simp [hangups_stop, hc] at h
  | some c =>
      simp [hangups_stop, hc] at h
      rw [← h.1]
      simp

/-- Witness for the amended C4: stopping from the Connected state clears all
handles and dialogs (the result is exactly the initial widget state). -/
theorem C4_stop_clears_everything_witness :
    hangups_stop sConnected =
      Except.ok (initWidget, [Act.stopCall, Act.disconnectScheduled]) ∧
    (initWidget.client = none ∧ initWidget.conv_list = none ∧
      initWidget.user_list = none ∧ initWidget.notifier = none ∧
      initWidget.conversations_dialog = none ∧ initWidget.messages_dialog = none) :=
  ⟨rfl, C4_stop_clears_everything sConnected initWidget
    [Act.stopCall, Act.disconnectScheduled] rfl⟩

theorem hangups_stop_some (s : QHangupsMainWidget) (c : Client)
    (hc : s.client = some c) :
    hangups_stop s =
      Except.ok (stoppedFrom s, [Act.stopCall, Act.disconnectScheduled]) := by
  simp [hangups_stop, hc, update_status, stoppedFrom]

theorem hangups_start_ok (c : String) (s : QHangupsMainWidget) :
    hangups_start (AuthOutcome.ok c) s =
      (startedFrom c s, [Act.startCall, Act.observerAdded, Act.connectScheduled]) := by
  simp [hangups_start, login, update_status, startedFrom]

theorem hangups_start_warn (s : QHangupsMainWidget) :
    hangups_start AuthOutcome.googleAuthError s = (s, [Act.startCall, Act.warningShown]) :=
  rfl

theorem hangups_start_abort (s : QHangupsMainWidget) :
    hangups_start AuthOutcome.aborted s = (s, [Act.startCall]) :=
  rfl

theorem icon_activated_arm (auth : AuthOutcome) (s : QHangupsMainWidget)
    (h : s.icon_doubleclick_timer_active = false) :
    icon_activated ActivationReason.trigger auth s =
      Except.ok ({ s with icon_doubleclick_timer_active := true }, [Act.timerStart]) := by
  simp [icon_activated, h]

/-- Claim C5: two tray-icon `Trigger` activations arriving while the
double-click timer is still running produce exactly one connection toggle — a
`hangups_stop` call if the session is running, else a `hangups_start` call —
and zero conversation-list visibility toggles, and the timer ends up stopped,
so no single-click timeout fires for the pair. -/
theorem C5_double_click_toggles_connection (s : QHangupsMainWidget)
    (auth1 auth2 : AuthOutcome)
    (htimer : s.icon_doubleclick_timer_active = false)
    (hclient : s.hangups_running = true → s.client.isSome = true) :
    ∃ s2 tr, two_clicks auth1 auth2 s = Except.ok (s2, tr) ∧
      connToggles tr =
        [if s.hangups_running then Act.stopCall else Act.startCall] ∧
      visToggles tr = [] ∧
      s2.icon_doubleclick_timer_active = false ∧
      timer_fire s2 = (s2, []) := by
  have h1 := icon_activated_arm auth1 s htimer
  cases hrun : s.hangups_running with
  | true =>
      cases hc : s.client with
      | none =>
          rw [hc] at hclient
          exact absurd (hclient hrun) (by simp)
      | some c =>
          have h2 : icon_activated ActivationReason.trigger auth2
              { s with icon_doubleclick_timer_active := true } =
              Except.ok
                (stoppedFrom { s with icon_doubleclick_timer_active := false },
                 [Act.timerStop, Act.stopCall, Act.disconnectScheduled]) := by
            have hstop :=
              hangups_stop_some { s with icon_doubleclick_timer_active := false } c hc
            rw [hrun] at hstop
            simp [icon_activated, hrun, hstop, Except.map]
          refine ⟨stoppedFrom { s with icon_doubleclick_timer_active := false },
            [Act.timerStart, Act.timerStop, Act.stopCall, Act.disconnectScheduled],
            ?_, ?_, ?_, ?_, ?_⟩
          · simp only [two_clicks, h1, h2]
            rfl
          · simp [connToggles, isConnToggle, hrun]
          · simp [visToggles, isVisToggle]
          · rfl
          · rfl
  | false =>
      cases auth2 with
      | ok c =>
          have h2 : icon_activated ActivationReason.trigger (AuthOutcome.ok c)
              { s with icon_doubleclick_timer_active := true } =
              Except.ok
                (startedFrom c { s with icon_doubleclick_timer_active := false },
                 [Act.timerStop, Act.startCall, Act.observerAdded,
                  Act.connectScheduled]) := by
            simp [icon_activated, hrun, hangups_start_ok]
          refine ⟨startedFrom c { s with icon_doubleclick_timer_active := false },
            [Act.timerStart, Act.timerStop, Act.startCall, Act.observerAdded,
             Act.connectScheduled], ?_, ?_, ?_, ?_, ?_⟩
          · simp only [two_clicks, h1, h2]
            rfl
          · simp [connToggles, isConnToggle, hrun]
          · simp [visToggles, isVisToggle]
          · rfl
          · rfl
      | googleAuthError =>
          have h2 : icon_activated ActivationReason.trigger AuthOutcome.googleAuthError
              { s with icon_doubleclick_timer_active := true } =
              Except.ok ({ s with icon_doubleclick_timer_active := false },
                [Act.timerStop, Act.startCall, Act.warningShown]) := by
            simp [icon_activated, hrun, hangups_start_warn]
          refine ⟨{ s with icon_doubleclick_timer_active := false },
            [Act.timerStart, Act.timerStop, Act.startCall, Act.warningShown],
            ?_, ?_, ?_, ?_, ?_⟩
          · simp only [two_clicks, h1, h2]
            rfl
          · simp [connToggles, isConnToggle, hrun]
          · simp [visToggles, isVisToggle]
          · rfl
          · rfl
      | aborted =>
          have h2 : icon_activated ActivationReason.trigger AuthOutcome.aborted
              { s with icon_doubleclick_timer_active := true } =
              Except.ok ({ s with icon_doubleclick_timer_active := false },
                [Act.timerStop, Act.startCall]) := by
            simp [icon_activated, hrun, hangups_start_abort]
          refine ⟨{ s with icon_doubleclick_timer_active := false },
            [Act.timerStart, Act.timerStop, Act.startCall], ?_, ?_, ?_, ?_, ?_⟩
          · simp only [two_clicks, h1, h2]
            rfl
          · simp [connToggles, isConnToggle, hrun]
          · simp [visToggles, isVisToggle]
          · rfl
          · rfl

/-- Witness for C5 at the initial (Disconnected, timer idle) state. -/
theorem C5_double_click_toggles_connection_witness :
    initWidget.icon_doubleclick_timer_active = false ∧
    ∃ s2 tr, two_clicks AuthOutcome.aborted AuthOutcome.aborted initWidget =
        Except.ok (s2, tr) ∧
      connToggles tr =
        [if initWidget.hangups_running then Act.stopCall else Act.startCall] ∧
      visToggles tr = [] ∧
      s2.icon_doubleclick_timer_active = false ∧
      timer_fire s2 = (s2, []) :=
  ⟨rfl, C5_double_click_toggles_connection initWidget AuthOutcome.aborted
    AuthOutcome.aborted rfl (by intro h; cases h)⟩

/-- Claim C6: one tray-icon `Trigger` activation followed by the double-click
timer expiring produces zero connection toggles and exactly the
conversation-list visibility toggle determined by the dialog: hide if it
exists and is visible, show if it exists and is hidden, nothing if it does not
exist. -/
theorem C6_single_click_toggles_view (s : QHangupsMainWidget) (auth : AuthOutcome)
    (htimer : s.icon_doubleclick_timer_active = false) :
    ∃ s2 tr, click_then_timeout auth s = Except.ok (s2, tr) ∧
      connToggles tr = [] ∧
      visToggles tr =
        (match s.conversations_dialog with
         | some d => if d.visible then [Act.hideConvList] else [Act.showConvList]
         | none => []) := by
  have h1 := icon_activated_arm auth s htimer
  cases hd : s.conversations_dialog with
  | none =>
      refine ⟨{ s with icon_doubleclick_timer_active := false }, [Act.timerStart],
        ?_, ?_, ?_⟩
      · simp only [click_then_timeout, h1]
        simp [timer_fire, icon_doubleclick_timeout, hd]
      · rfl
      · simp [visToggles, isVisToggle]
  | some d =>
      cases hv : d.visible with
      | true =>
          refine ⟨{ s with
              icon_doubleclick_timer_active := false
              conversations_dialog := some { d with visible := false } },
            [Act.timerStart, Act.hideConvList], ?_, ?_, ?_⟩
          · simp only [click_then_timeout, h1]
            simp [timer_fire, icon_doubleclick_timeout, hd, hv]
          · rfl
          · simp [visToggles, isVisToggle, hv]
      | false =>
          refine ⟨{ s with
              icon_doubleclick_timer_active := false
              conversations_dialog := some { d with visible := true } },
            [Act.timerStart, Act.showConvList], ?_, ?_, ?_⟩
          · simp only [click_then_timeout, h1]
            simp [timer_fire, icon_doubleclick_timeout, hd, hv]
          · rfl
          · simp [visToggles, isVisToggle, hv]

/-- Witness for C6 at the initial state (timer idle, no conversations dialog). -/
theorem C6_single_click_toggles_view_witness :
    initWidget.icon_doubleclick_timer_active = false ∧
    ∃ s2 tr, click_then_timeout AuthOutcome.aborted initWidget = Except.ok (s2, tr) ∧
      connToggles tr = [] ∧
      visToggles tr =
        (match initWidget.conversations_dialog with
         | some d => if d.visible then [Act.hideConvList] else [Act.showConvList]
         | none => []) :=
  ⟨rfl, C6_single_click_toggles_view initWidget AuthOutcome.aborted rfl⟩

/-- Claim C7: a `ChatMessageEvent` with no messages dialog creates exactly one
dialog, targets and shows the tab of its conversation id; a second
`ChatMessageEvent` for a different conversation reuses the same dialog (no
further creation), retargets to the new tab and keeps the first tab; rename
and membership events are not routed to any UI surface. -/
theorem C7_message_event_routing (s : QHangupsMainWidget) (c1 c2 : String)
    (hnone : s.messages_dialog = none) (hne : c1 ≠ c2) :
    (on_event (ConvEvent.chatMessageEvent c1) s).2 =
      [Act.createMessagesDialog, Act.setConvTab c1, Act.showMessagesDialog] ∧
    (on_event (ConvEvent.chatMessageEvent c1) s).1.messages_dialog =
      some { client := s.client, conv_list := s.conv_list, tabs := [c1],
             current := some c1, visible := true } ∧
    (on_event (ConvEvent.chatMessageEvent c2)
        (on_event (ConvEvent.chatMessageEvent c1) s).1).2 =
      [Act.setConvTab c2, Act.showMessagesDialog] ∧
    (on_event (ConvEvent.chatMessageEvent c2)
        (on_event (ConvEvent.chatMessageEvent c1) s).1).1.messages_dialog =
      some { client := s.client, conv_list := s.conv_list, tabs := [c1, c2],
             current := some c2, visible := true } ∧
    (∀ t, on_event ConvEvent.renameEvent t = (t, []) ∧
      on_event ConvEvent.membershipChangeEvent t = (t, [])) := by
  have hne2 : c2 ≠ c1 := fun h => hne h.symm
  refine ⟨?_, ?_, ?_, ?_, fun t => ⟨rfl, rfl⟩⟩
  · simp [on_event, hnone]
  · simp [on_event, hnone, set_conv_tab]
  · simp [on_event, hnone, set_conv_tab, hne2]
  · simp [on_event, hnone, set_conv_tab, hne2]

/-- Witness for C7 at the initial state with conversations `"C1"` and `"C2"`. -/
theorem C7_message_event_routing_witness :
    (on_event (ConvEvent.chatMessageEvent "C1") initWidget).2 =
      [Act.createMessagesDialog, Act.setConvTab "C1", Act.showMessagesDialog] ∧
    (on_event (ConvEvent.chatMessageEvent "C1") initWidget).1.messages_dialog =
      some { client := initWidget.client, conv_list := initWidget.conv_list,
             tabs := ["C1"], current := some "C1", visible := true } ∧
    (on_event (ConvEvent.chatMessageEvent "C2")
        (on_event (ConvEvent.chatMessageEvent "C1") initWidget).1).2 =
      [Act.setConvTab "C2", Act.showMessagesDialog] ∧
    (on_event (ConvEvent.chatMessageEvent "C2")
        (on_event (ConvEvent.chatMessageEvent "C1") initWidget).1).1.messages_dialog =
      some { client := initWidget.client, conv_list := initWidget.conv_list,
             tabs := ["C1", "C2"], current := some "C2", visible := true } ∧
    (∀ t, on_event ConvEvent.renameEvent t = (t, []) ∧
      on_event ConvEvent.membershipChangeEvent t = (t, [])) :=
  C7_message_event_routing initWidget "C1" "C2" rfl (by decide)

/-- Claim C8: an accepted settings change while Connected performs exactly one
`hangups_stop` followed by exactly one `hangups_start`, in that order; when the
session is not running, neither is invoked (only the language is rebound). -/
theorem C8_settings_reconnect (s : QHangupsMainWidget) (auth : AuthOutcome) :
    (ConnectedState s →
      ∃ s' tr, settings true auth s = Except.ok (s', tr) ∧
        connToggles tr = [Act.stopCall, Act.startCall]) ∧
    (s.hangups_running = false →
      settings true auth s = Except.ok (s, [Act.setLanguage])) := by
  constructor
  · rintro ⟨hr, hc, -, -, -⟩
    cases hcl : s.client with
    | none => rw [hcl] at hc; cases hc
    | some c =>
        have hstop := hangups_stop_some s c hcl
        cases auth with
        | ok ck =>
            refine ⟨startedFrom ck (stoppedFrom s),
              [Act.setLanguage, Act.stopCall, Act.disconnectScheduled,
               Act.startCall, Act.observerAdded, Act.connectScheduled], ?_, ?_⟩
            · simp [settings, hr, hstop, Except.map, hangups_start_ok]
            · rfl
        | googleAuthError =>
            refine ⟨stoppedFrom s,
              [Act.setLanguage, Act.stopCall, Act.disconnectScheduled,
               Act.startCall, Act.warningShown], ?_, ?_⟩
            · simp [settings, hr, hstop, Except.map, hangups_start_warn]
            · rfl
        | aborted =>
            refine ⟨stoppedFrom s,
              [Act.setLanguage, Act.stopCall, Act.disconnectScheduled,
               Act.startCall], ?_, ?_⟩
            · simp [settings, hr, hstop, Except.map, hangups_start_abort]
            · rfl
  · intro hr
    simp [settings, hr]

/-- Witness for C8: reconnect from the Connected state, no toggles from the
initial (Disconnected) state. -/
theorem C8_settings_reconnect_witness :
    (∃ s' tr, settings true (AuthOutcome.ok "c") sConnected = Except.ok (s', tr) ∧
      connToggles tr = [Act.stopCall, Act.startCall]) ∧
    settings true (AuthOutcome.ok "c") initWidget =
      Except.ok (initWidget, [Act.setLanguage]) :=
  ⟨(C8_settings_reconnect sConnected (AuthOutcome.ok "c")).1 ⟨rfl, rfl, rfl, rfl, rfl⟩,
   (C8_settings_reconnect initWidget (AuthOutcome.ok "c")).2 rfl⟩

/-- Claim C9: cancelling the email, password or PIN prompt makes the
authentication abort silently — `hangups_start` leaves the state unchanged,
shows no warning, allocates no client and registers no observer (the trace is
just the invocation marker) — whereas wrong credentials (GoogleAuthError)
additionally show the warning. -/
theorem C9_cancel_aborts_silently (s : QHangupsMainWidget)
    (password pin : PromptResult) (credentialsValid pinRequired : Bool) :
    hangups_start
        (get_auth (get_credentials PromptResult.cancelled password)
          credentialsValid pinRequired (get_pin pin)) s = (s, [Act.startCall]) ∧
    hangups_start
        (get_auth (get_credentials (PromptResult.entered "e") PromptResult.cancelled)
          credentialsValid pinRequired (get_pin pin)) s = (s, [Act.startCall]) ∧
    hangups_start
        (get_auth (some ("e", "p")) true true (get_pin PromptResult.cancelled)) s =
      (s, [Act.startCall]) ∧
    hangups_start
        (get_auth (some ("e", "p")) false pinRequired (get_pin pin)) s =
      (s, [Act.startCall, Act.warningShown]) :=
  ⟨rfl, rfl, rfl, rfl⟩

/-- Claim C10: a tray-icon activation whose reason is not `Trigger` (context
menu, double-click report, middle click, unknown) leaves the widget unchanged —
the timer is neither started nor stopped — and emits no action at all. -/
theorem C10_non_trigger_activation_ignored (reason : ActivationReason)
    (auth : AuthOutcome) (s : QHangupsMainWidget)
    (h : reason ≠ ActivationReason.trigger) :
    icon_activated reason auth s = Except.ok (s, []) := by
  simp [icon_activated, h]

/-- Witness for C10: a context-menu activation at the initial state. -/
theorem C10_non_trigger_activation_ignored_witness :
    ActivationReason.context ≠ ActivationReason.trigger ∧
    icon_activated ActivationReason.context AuthOutcome.aborted initWidget =
      Except.ok (initWidget, []) :=
  ⟨by decide, C10_non_trigger_activation_ignored ActivationReason.context
    AuthOutcome.aborted initWidget (by decide)⟩
